import Mathlib

/-!
Verification of the "poor-house dub" real-time synthesizer core.

The development shallowly embeds the C++ sources of the repository into
Lean: machine floats are modelled as exact rationals, stateful objects as
explicit state records with state-passing step functions, and per-block
loops as structural recursions over lists.  Transcendental library
functions used by the code (std::sin, std::exp/pow and the TWO_PI
constant) are taken as parameters of the embedding, collected in the
`ExtFuns` record: no claim below depends on their values.

Components whose .cpp/.h files are not part of the source tree
(Common.h, Oscillator, LFO, Envelope, Filter, Delay, SmoothedValue) are
modelled from the specification; each such definition carries a doc
comment starting with "Modelled from the spec:".  Everything else is
translated from the C++ sources (AudioEngine.cpp, Reverb.cpp both
variants, GPIOController.cpp, SamplePlayer.cpp).
-/

namespace DubSiren

/-- Modelled from the spec: `clamp` from the missing Common.h, the
standard clamp used throughout the sources (std::clamp semantics). -/
def clamp (x lo hi : ℚ) : ℚ :=
  if x < lo then lo else if hi < x then hi else x

/-- Modelled from the spec: `clampSample` from the missing Common.h;
recursive delay-line writes are "always clamped to [-1, 1] to prevent
runaway" (spec 4.1). -/
def clampSample (x : ℚ) : ℚ := clamp x (-1) 1

/-- ANTI_DENORMAL constant from Reverb.cpp (part_009 line 21): 1e-20. -/
def antiDenormal : ℚ := 1 / 10 ^ 20

/-- Truncation of a rational toward zero, modelling C++
`static_cast<int>` on a floating-point value. -/
def ratTrunc (q : ℚ) : ℤ := Int.tdiv q.num (q.den : ℤ)

/-- Fractional part, modelling phase wrap into [0,1). -/
def fract (q : ℚ) : ℚ := q - (⌊q⌋ : ℚ)

theorem clamp_le (x lo hi : ℚ) (h : lo ≤ hi) : lo ≤ clamp x lo hi ∧ clamp x lo hi ≤ hi := by
  unfold clamp
  split
  · exact ⟨le_refl lo, h⟩
  · split
    · exact ⟨h, le_refl hi⟩
    · constructor
      · linarith [not_lt.mp (by assumption : ¬ x < lo)]
      · linarith [not_lt.mp (by assumption : ¬ hi < x)]

theorem abs_clampSample_le_one (x : ℚ) : |clampSample x| ≤ 1 := by
  have h := clamp_le x (-1) 1 (by norm_num)
  rw [abs_le]
  exact ⟨h.1, h.2⟩

/-- Waveform tagged enum {Sine, Square, Saw, Triangle}, tags 0..3. -/
inductive Waveform where
  | Sine
  | Square
  | Saw
  | Triangle
deriving DecidableEq

/-- Integer tag of a waveform (Common.h enum order, spec section 3). -/
def wfTag : Waveform → ℤ
  | .Sine => 0
  | .Square => 1
  | .Saw => 2
  | .Triangle => 3

/-- Valid-enumerator relation for `static_cast<Waveform>`: only the
tags 0..3 denote a waveform; any other value is not a valid enumerator. -/
def waveformOfTag (t : ℤ) : Option Waveform :=
  if t = 0 then some .Sine
  else if t = 1 then some .Square
  else if t = 2 then some .Saw
  else if t = 3 then some .Triangle
  else none

/-- Total reading of `static_cast<Waveform>(t)` used where the cast is
known to be in range; out of the range 0..3 the C++ value is
unspecified and the final branch here is an arbitrary placeholder. -/
def castWaveform (t : ℤ) : Waveform :=
  if t = 0 then .Sine
  else if t = 1 then .Square
  else if t = 2 then .Saw
  else .Triangle

/-- PitchEnvelopeMode tagged enum {None, Up, Down}. -/
inductive PitchEnvelopeMode where
  | None
  | Up
  | Down
deriving DecidableEq

/-- Cast argument computed by `AudioEngine::setWaveform(int)`
(AudioEngine.cpp line 154): C++ `index % 4`, which truncates toward
zero, embedded as `Int.tmod`. -/
def waveformCastTag (index : ℤ) : ℤ := Int.tmod index 4

/-- Cast argument computed by `AudioEngine::setLfoWaveform(int)`
(AudioEngine.cpp line 178), identical computation. -/
def lfoWaveformCastTag (index : ℤ) : ℤ := Int.tmod index 4

/-- Transcendental helpers imported by the C++ code from libm, taken as
parameters of the embedding: `sinr` models `std::sin` (radians),
`twoPi` the TWO_PI constant, `alphaOf` the filter-coefficient map
fc ↦ 1 − exp(−2π·fc/SR), and `pow2` the map x ↦ 2^x used for the
LFO cutoff modulation. -/
structure ExtFuns where
  sinr : ℚ → ℚ
  twoPi : ℚ
  alphaOf : ℚ → ℚ
  pow2 : ℚ → ℚ

/-- Per-sample loop over a block: threads a filter state through an
input list, producing the output list and the final state.  Mirrors
the `for (i = 0; i < numSamples; ++i)` loops of the sources. -/
def runBlock {σ : Type} (f : σ → ℚ → ℚ × σ) : σ → List ℚ → List ℚ × σ
  | s, [] => ([], s)
  | s, x :: xs =>
    let p := f s x
    let r := runBlock f p.2 xs
    (p.1 :: r.1, r.2)

theorem runBlock_length {σ : Type} (f : σ → ℚ → ℚ × σ) (s : σ) (l : List ℚ) :
    (runBlock f s l).1.length = l.length := by
  induction l generalizing s with
  | nil => rfl
  | cons x xs ih => simpa [runBlock] using ih _

-- ============================================================================
-- DSP primitives whose sources are missing from the tree (modelled from spec)
-- ============================================================================

/-- Modelled from the spec: `SmoothedValue` from the missing Common.h,
"(target, current, coefficient). getNext() advances current toward
target by coefficient; called from audio thread only" (spec section 3). -/
structure SmoothedValue where
  target : ℚ
  current : ℚ
  coeff : ℚ
deriving DecidableEq

/-- Modelled from the spec: advance current toward target by the
coefficient and return the new current value. -/
def SmoothedValue.getNext (s : SmoothedValue) : ℚ × SmoothedValue :=
  let c := s.current + s.coeff * (s.target - s.current)
  (c, { s with current := c })

/-- Modelled from the spec: set the smoothing target. -/
def SmoothedValue.setTarget (s : SmoothedValue) (t : ℚ) : SmoothedValue :=
  { s with target := t }

/-- Successive values produced by repeated `getNext` calls. -/
def smootherTrace : SmoothedValue → ℕ → List ℚ
  | _, 0 => []
  | s, Nat.succ n =>
    let p := s.getNext
    p.1 :: smootherTrace p.2 n

/-- Modelled from the spec: oscillator state — "phase ∈ [0,1);
frequency (Hz); waveform" (spec section 3).  Oscillator.cpp is missing
from the tree; the PolyBLEP corrections are omitted (they only perturb
the sample values, which no claim depends on). -/
structure Oscillator where
  sr : ℚ
  phase : ℚ
  freq : ℚ
  wf : Waveform
deriving DecidableEq

/-- Modelled from the spec: store the frequency written per sample by
the engine. -/
def Oscillator.setFrequency (f : ℚ) (o : Oscillator) : Oscillator :=
  { o with freq := f }

/-- Modelled from the spec: store the waveform. -/
def Oscillator.setWaveform (wf : Waveform) (o : Oscillator) : Oscillator :=
  { o with wf := wf }

/-- Modelled from the spec: `trigger()` "resets oscillator phase". -/
def Oscillator.resetPhase (o : Oscillator) : Oscillator :=
  { o with phase := 0 }

/-- Modelled from the spec: waveform shape at a phase in [0,1);
Sine = sin(2π·phase), the others are the ideal shapes NAudio-style,
output range [-1, 1]. -/
def waveShape (ef : ExtFuns) (wf : Waveform) (phase : ℚ) : ℚ :=
  match wf with
  | .Sine => ef.sinr (ef.twoPi * phase)
  | .Square => if phase < 1 / 2 then 1 else -1
  | .Saw => 2 * phase - 1
  | .Triangle => if phase < 1 / 2 then 4 * phase - 1 else 3 - 4 * phase

/-- Modelled from the spec: generate one sample and increment the phase
by f/SR with wrap mod 1. -/
def Oscillator.generateSample (ef : ExtFuns) (o : Oscillator) : ℚ × Oscillator :=
  (waveShape ef o.wf o.phase, { o with phase := fract (o.phase + o.freq / o.sr) })

/-- Modelled from the spec: LFO, "identical generation to Oscillator";
`setDepth(d)` scales output; depth 0 yields a zero block (spec 4.1). -/
structure LFO where
  sr : ℚ
  phase : ℚ
  freq : ℚ
  depth : ℚ
  wf : Waveform
deriving DecidableEq

/-- Modelled from the spec: store the LFO rate. -/
def LFO.setFrequency (f : ℚ) (l : LFO) : LFO := { l with freq := f }

/-- Modelled from the spec: store the LFO depth. -/
def LFO.setDepth (d : ℚ) (l : LFO) : LFO := { l with depth := d }

/-- Modelled from the spec: store the LFO waveform. -/
def LFO.setWaveform (wf : Waveform) (l : LFO) : LFO := { l with wf := wf }

/-- Modelled from the spec: `generate(buf, N)` fills a block with
depth-scaled waveform samples, advancing the phase. -/
def LFO.generate (ef : ExtFuns) : LFO → ℕ → List ℚ × LFO
  | l, 0 => ([], l)
  | l, Nat.succ n =>
    let v := l.depth * waveShape ef l.wf l.phase
    let l1 : LFO := { l with phase := fract (l.phase + l.freq / l.sr) }
    let r := LFO.generate ef l1 n
    (v :: r.1, r.2)

/-- Envelope stage (spec section 3): Idle, Attack, Sustain, Release. -/
inductive EnvStage where
  | Idle
  | Attack
  | Sustain
  | Release
deriving DecidableEq

/-- Modelled from the spec: AR envelope state — stage, current level in
[0,1], attack/release times in seconds (Envelope.cpp is missing). -/
structure Envelope where
  sr : ℚ
  stage : EnvStage
  level : ℚ
  attackTime : ℚ
  releaseTime : ℚ
deriving DecidableEq

/-- Modelled from the spec: store the attack time. -/
def Envelope.setAttack (t : ℚ) (e : Envelope) : Envelope := { e with attackTime := t }

/-- Modelled from the spec: store the release time. -/
def Envelope.setRelease (t : ℚ) (e : Envelope) : Envelope := { e with releaseTime := t }

/-- Modelled from the spec: `trigger()` jumps to Attack from the
current level (no click). -/
def Envelope.trigger (e : Envelope) : Envelope := { e with stage := .Attack }

/-- Modelled from the spec: `release()` jumps to Release from the
current level. -/
def Envelope.doRelease (e : Envelope) : Envelope := { e with stage := .Release }

/-- Modelled from the spec: one envelope sample — Attack moves the
level linearly to 1 over `attackTime` seconds then enters Sustain;
Release moves it linearly to 0 then enters Idle. -/
def Envelope.step (e : Envelope) : ℚ × Envelope :=
  match e.stage with
  | .Idle => (0, e)
  | .Attack =>
    let inc := if 0 < e.attackTime * e.sr then 1 / (e.attackTime * e.sr) else 1
    let l := e.level + inc
    if 1 ≤ l then (1, { e with level := 1, stage := .Sustain })
    else (l, { e with level := l })
  | .Sustain => (1, e)
  | .Release =>
    let dec := if 0 < e.releaseTime * e.sr then 1 / (e.releaseTime * e.sr) else 1
    let l := e.level - dec
    if l ≤ 0 then (0, { e with level := 0, stage := .Idle })
    else (l, { e with level := l })

/-- Modelled from the spec: `generate(buf, N)` fills a block, advancing
the stage machine. -/
def Envelope.generate : Envelope → ℕ → List ℚ × Envelope
  | e, 0 => ([], e)
  | e, Nat.succ n =>
    let p := e.step
    let r := Envelope.generate p.2 n
    (p.1 :: r.1, r.2)

/-- Modelled from the spec: one-pole resonant low-pass filter —
y[n] = y[n-1] + α·(x[n] − y[n-1] + Q·(y[n-1] − y[n-2])) with
α = 1 − exp(−2π·fc/SR) supplied through `ExtFuns.alphaOf`
(Filter.cpp is missing). -/
structure LowPassFilter where
  sr : ℚ
  cutoff : ℚ
  res : ℚ
  y1 : ℚ
  y2 : ℚ
deriving DecidableEq

/-- Modelled from the spec: `setCutoff(fc)` clamped [20, SR/2·0.9]. -/
def LowPassFilter.setCutoff (fc : ℚ) (f : LowPassFilter) : LowPassFilter :=
  { f with cutoff := clamp fc 20 (f.sr / 2 * (9 / 10)) }

/-- Modelled from the spec: `setResonance(q)` clamped [0, 0.95]. -/
def LowPassFilter.setResonance (q : ℚ) (f : LowPassFilter) : LowPassFilter :=
  { f with res := clamp q 0 (19 / 20) }

/-- Modelled from the spec: one filter step of the recurrence above. -/
def LowPassFilter.processSample (ef : ExtFuns) (f : LowPassFilter) (x : ℚ) :
    ℚ × LowPassFilter :=
  let a := ef.alphaOf f.cutoff
  let y := f.y1 + a * (x - f.y1 + f.res * (f.y1 - f.y2))
  (y, { f with y1 := y, y2 := f.y1 })

/-- Modelled from the spec: DC blocker, y[n] = x[n] − x[n-1] + 0.995·y[n-1]
(spec 4.1; DCBlocker source missing from the tree). -/
structure DCBlocker where
  x1 : ℚ
  y1 : ℚ
deriving DecidableEq

/-- Modelled from the spec: one DC-blocker step. -/
def DCBlocker.step (d : DCBlocker) (x : ℚ) : ℚ × DCBlocker :=
  let y := x - d.x1 + (199 / 200) * d.y1
  (y, { x1 := x, y1 := y })

/-- Modelled from the spec: block form of the DC blocker. -/
def DCBlocker.process (d : DCBlocker) (input : List ℚ) : List ℚ × DCBlocker :=
  runBlock DCBlocker.step d input

/-- Modelled from the spec: tape-style delay (Delay.cpp missing) —
circular buffer, feedback in [0,0.95], dryWet in [0,1]; per sample:
read the delayed sample, write clamp(input + read·g), output
input·(1−m) + read·m (spec 4.1).  The sub-sample wobble, interpolation
and time smoothing are omitted; no claim depends on them. -/
structure DelayEffect where
  sr : ℚ
  buffer : List ℚ
  writePos : ℕ
  delaySamples : ℕ
  feedback : ℚ
  dryWet : ℚ
deriving DecidableEq

/-- Modelled from the spec: `setDelayTime(t)` clamped [0.001, 2.0],
converted to samples. -/
def DelayEffect.setDelayTime (t : ℚ) (d : DelayEffect) : DelayEffect :=
  { d with delaySamples := (⌊clamp t (1 / 1000) 2 * d.sr⌋).toNat }

/-- Modelled from the spec: `setFeedback(g)` clamped [0, 0.95]. -/
def DelayEffect.setFeedback (g : ℚ) (d : DelayEffect) : DelayEffect :=
  { d with feedback := clamp g 0 (19 / 20) }

/-- Modelled from the spec: `setDryWet(m)` clamped [0, 1]. -/
def DelayEffect.setDryWet (m : ℚ) (d : DelayEffect) : DelayEffect :=
  { d with dryWet := clamp m 0 1 }

/-- Modelled from the spec: one delay step on the circular buffer. -/
def DelayEffect.step (d : DelayEffect) (x : ℚ) : ℚ × DelayEffect :=
  let sz := d.buffer.length
  let readIdx := if sz = 0 then 0 else (d.writePos + sz - d.delaySamples % sz) % sz
  let r := d.buffer.getD readIdx 0
  let w := clampSample (x + r * d.feedback)
  let out := x * (1 - d.dryWet) + r * d.dryWet
  (out, { d with buffer := d.buffer.set d.writePos w,
                 writePos := if sz = 0 then 0 else (d.writePos + 1) % sz })

/-- Modelled from the spec: block form of the delay. -/
def DelayEffect.process (d : DelayEffect) (input : List ℚ) : List ℚ × DelayEffect :=
  runBlock DelayEffect.step d input

-- ============================================================================
-- Chamber reverb, translated from Reverb.cpp (part_009)
-- ============================================================================

/-- Allpass filter state (part_009 lines 12-18): circular buffer with
write position, nominal delay length and feedback gain. -/
structure AllpassFilter where
  buffer : List ℚ
  writePos : ℕ
  delaySamples : ℕ
  feedback : ℚ
deriving DecidableEq

/-- `AllpassFilter::process` (part_009 lines 23-35): read the delayed
sample, output −x + d + g·(x − d), write clamp(x + g·d) plus the
anti-denormal constant, advance the write position. -/
def AllpassFilter.process (ap : AllpassFilter) (input : ℚ) : ℚ × AllpassFilter :=
  let sz := ap.buffer.length
  let readPos := (Int.tmod ((ap.writePos : ℤ) - (ap.delaySamples : ℤ) + (sz : ℤ)) (sz : ℤ)).toNat
  let delayed := ap.buffer.getD readPos 0
  let output := -input + delayed + ap.feedback * (input - delayed)
  let w := clampSample (input + ap.feedback * delayed) + antiDenormal
  (output, { ap with buffer := ap.buffer.set ap.writePos w,
                     writePos := (ap.writePos + 1) % sz })

/-- Damped comb filter state (part_009 lines 41-57): circular buffer,
feedback, damping, one-pole damper state and the slow sinusoidal
read-position modulation (depth 2 samples, rate 0.3 Hz, random initial
phase — the phase is part of the state here). -/
structure DampedCombFilter where
  sampleRate : ℚ
  buffer : List ℚ
  writePos : ℕ
  delaySamples : ℕ
  feedback : ℚ
  damping : ℚ
  damperState : ℚ
  modDepthSamples : ℚ
  modRate : ℚ
  modPhase : ℚ
deriving DecidableEq

/-- Setter `DampedCombFilter::setFeedback` (Reverb.h line 36). -/
def DampedCombFilter.setFeedback (fb : ℚ) (c : DampedCombFilter) : DampedCombFilter :=
  { c with feedback := fb }

/-- Setter `DampedCombFilter::setDamping` (Reverb.h line 37). -/
def DampedCombFilter.setDamping (damp : ℚ) (c : DampedCombFilter) : DampedCombFilter :=
  { c with damping := damp }

/-- `DampedCombFilter::process` (part_009 lines 59-89): modulated
interpolated read, one-pole damped feedback with clamping and
anti-denormal injection, then write input + damped·feedback. -/
def DampedCombFilter.process (ef : ExtFuns) (c : DampedCombFilter) (input : ℚ) :
    ℚ × DampedCombFilter :=
  let sz := c.buffer.length
  let modOffset := c.modDepthSamples * ef.sinr c.modPhase
  let phase1 := c.modPhase + ef.twoPi * c.modRate / c.sampleRate
  let phase2 := if ef.twoPi < phase1 then phase1 - ef.twoPi else phase1
  let readPosFloat0 := (c.writePos : ℚ) - (c.delaySamples : ℚ) + modOffset
  let readPosFloat := if readPosFloat0 < 0 then readPosFloat0 + (sz : ℚ) else readPosFloat0
  let readPosInt := (Int.tmod (ratTrunc readPosFloat) (sz : ℤ)).toNat
  let readPosNext := (readPosInt + 1) % sz
  let frac := readPosFloat - (⌊readPosFloat⌋ : ℚ)
  let delayed := c.buffer.getD readPosInt 0 * (1 - frac) + c.buffer.getD readPosNext 0 * frac
  let dampingCoeff := 1 - c.damping * (1 / 2)
  let damper := clampSample (dampingCoeff * delayed + (1 - dampingCoeff) * c.damperState)
    + antiDenormal
  let w := clampSample (input + damper * c.feedback) + antiDenormal
  (delayed, { c with buffer := c.buffer.set c.writePos w,
                     writePos := (c.writePos + 1) % sz,
                     damperState := damper,
                     modPhase := phase2 })

/-- Early-reflection pass over the 8 tapped delay lines for one input
sample (part_009 lines 144-163): each line is read at its write
position, then overwritten with the attenuated input; `j` is the line
index driving the attenuation 0.7 − j·0.05. -/
def earlyLines (x : ℚ) : ℕ → List (List ℚ × ℕ) → ℚ × List (List ℚ × ℕ)
  | _, [] => (0, [])
  | j, line :: rest =>
    let buf := line.1
    let w := line.2
    let r := earlyLines x (j + 1) rest
    let att := 7 / 10 - (j : ℚ) * (1 / 20)
    (buf.getD w 0 + r.1, (buf.set w (clampSample (x * att)), (w + 1) % buf.length) :: r.2)

/-- One sample of `ReverbEffect::processEarlyReflections`
(part_009 lines 143-164): sum of the 8 taps divided by
NUM_EARLY_REFLECTIONS = 8. -/
def earlyStep (st : List (List ℚ × ℕ)) (x : ℚ) : ℚ × List (List ℚ × ℕ) :=
  let r := earlyLines x 0 st
  (r.1 / 8, r.2)

/-- Series chain of allpass filters applied to one sample
(part_009 lines 181-185). -/
def allpassChain : List AllpassFilter → ℚ → ℚ × List AllpassFilter
  | [], x => (x, [])
  | ap :: rest, x =>
    let p := ap.process x
    let r := allpassChain rest p.1
    (r.1, p.2 :: r.2)

/-- Parallel comb bank applied to one sample: each comb processes the
same input and the outputs are summed (part_009 lines 188-194). -/
def combBank (ef : ExtFuns) : List DampedCombFilter → ℚ → ℚ × List DampedCombFilter
  | [], _ => (0, [])
  | c :: rest, x =>
    let p := c.process ef x
    let r := combBank ef rest x
    (p.1 + r.1, p.2 :: r.2)

/-- One comb-bank sample divided by NUM_COMB_FILTERS = 6
(part_009 line 193). -/
def combStep (ef : ExtFuns) (st : List DampedCombFilter) (x : ℚ) :
    ℚ × List DampedCombFilter :=
  let r := combBank ef st x
  (r.1 / 6, r.2)

/-- Final wet/dry mix loop (part_009 lines 202-205):
wet = early·earlyLevel + combOut; y = x·(1 − dryWet) + wet·dryWet. -/
def mixLoop (dryWet earlyLevel : ℚ) : List ℚ → List ℚ → List ℚ → List ℚ
  | x :: xs, e :: es, c :: cs =>
    (x * (1 - dryWet) + (e * earlyLevel + c) * dryWet) :: mixLoop dryWet earlyLevel xs es cs
  | _, _, _ => []

/-- Chamber `ReverbEffect` state (Reverb.h lines 64-115 and the
constructor part_009 lines 95-131): early-reflection lines, two input
diffusion allpasses, six damped combs, one output allpass, and the
size / dryWet / damping / earlyLevel parameters. -/
structure ReverbEffect where
  sampleRate : ℚ
  early : List (List ℚ × ℕ)
  inputDiffusion : List AllpassFilter
  outputDiffusion : AllpassFilter
  combFilters : List DampedCombFilter
  size : ℚ
  dryWet : ℚ
  damping : ℚ
  earlyLevel : ℚ
deriving DecidableEq

/-- `ReverbEffect::updateParameters` (part_009 lines 133-141): derive
the comb feedback 0.4 + size·0.45 and push feedback and damping into
every comb. -/
def ReverbEffect.updateParameters (st : ReverbEffect) : ReverbEffect :=
  let baseFeedback := 2 / 5 + st.size * (9 / 20)
  { st with combFilters :=
      st.combFilters.map (fun c => (c.setFeedback baseFeedback).setDamping st.damping) }

/-- `ReverbEffect::setSize` (part_009 lines 208-211): clamp to [0,1]
then update the derived parameters. -/
def ReverbEffect.setSize (st : ReverbEffect) (s : ℚ) : ReverbEffect :=
  ReverbEffect.updateParameters { st with size := clamp s 0 1 }

/-- `ReverbEffect::setDryWet` (part_009 lines 213-215). -/
def ReverbEffect.setDryWet (st : ReverbEffect) (mix : ℚ) : ReverbEffect :=
  { st with dryWet := clamp mix 0 1 }

/-- `ReverbEffect::setDamping` (part_009 lines 217-220). -/
def ReverbEffect.setDamping (st : ReverbEffect) (damp : ℚ) : ReverbEffect :=
  ReverbEffect.updateParameters { st with damping := clamp damp 0 1 }

/-- `ReverbEffect::process` (part_009 lines 166-206): early
reflections, input diffusion of a copy of the input, parallel comb
bank, output diffusion, then the wet/dry mix. -/
def ReverbEffect.process (ef : ExtFuns) (st : ReverbEffect) (input : List ℚ) :
    List ℚ × ReverbEffect :=
  let e := runBlock earlyStep st.early input
  let d := runBlock (fun s x => allpassChain s x) st.inputDiffusion input
  let c := runBlock (combStep ef) st.combFilters d.1
  let o := runBlock (fun ap x => ap.process x) st.outputDiffusion c.1
  (mixLoop st.dryWet st.earlyLevel input e.1 o.1,
   { st with early := e.2, inputDiffusion := d.2, combFilters := c.2,
             outputDiffusion := o.2 })

end DubSiren

-- ============================================================================
-- Freeverb-style reverb, translated from src/cpp/src/DSP/Reverb.cpp
-- ============================================================================

namespace DubSiren.Freeverb

open DubSiren

/-- Freeverb constants (SamplePlayer.h lines 394-402): FIXED_GAIN 0.015,
SCALE_WET 3, SCALE_DRY 2, SCALE_DAMP 0.4, SCALE_ROOM 0.28,
OFFSET_ROOM 0.7. -/
def FIXED_GAIN : ℚ := 3 / 200

def SCALE_WET : ℚ := 3

def SCALE_DRY : ℚ := 2

def SCALE_DAMP : ℚ := 2 / 5

def SCALE_ROOM : ℚ := 7 / 25

def OFFSET_ROOM : ℚ := 7 / 10

/-- Freeverb damped comb filter state (SamplePlayer.h lines 350-359):
circular buffer, index, and the damping low-pass store. -/
structure CombFilter where
  buffer : List ℚ
  index : ℕ
  filterStore : ℚ
deriving DecidableEq

/-- `ReverbEffect::CombFilter::process` (Reverb.cpp lines 18-38): read
the buffer, run the one-pole damper with the denormal squash at 1e-10,
write input + store·feedback and advance the index. -/
def CombFilter.process (c : CombFilter) (input feedback damp1 damp2 : ℚ) :
    ℚ × CombFilter :=
  let output := c.buffer.getD c.index 0
  let fs0 := output * damp2 + c.filterStore * damp1
  let fs := if |fs0| < 1 / 10 ^ 10 then 0 else fs0
  let idx := if c.buffer.length ≤ c.index + 1 then 0 else c.index + 1
  (output, { buffer := c.buffer.set c.index (input + fs * feedback),
             index := idx, filterStore := fs })

/-- Freeverb allpass filter state (SamplePlayer.h lines 362-370). -/
structure ApFilter where
  buffer : List ℚ
  index : ℕ
deriving DecidableEq

/-- `ReverbEffect::AllpassFilter::process` (Reverb.cpp lines 50-67):
fixed 0.5 feedback, output −x + bufOut, denormal squash at 1e-10. -/
def ApFilter.process (a : ApFilter) (input : ℚ) : ℚ × ApFilter :=
  let bufOut := a.buffer.getD a.index 0
  let output := -input + bufOut
  let v0 := input + bufOut * (1 / 2)
  let v := if |v0| < 1 / 10 ^ 10 then 0 else v0
  let idx := if a.buffer.length ≤ a.index + 1 then 0 else a.index + 1
  (output, { buffer := a.buffer.set a.index v, index := idx })

/-- Parallel comb bank for one channel sample (Reverb.cpp lines 136-139):
outputs are accumulated with +=. -/
def combSum (input feedback damp1 damp2 : ℚ) : List CombFilter → ℚ × List CombFilter
  | [] => (0, [])
  | c :: rest =>
    let p := c.process input feedback damp1 damp2
    let r := combSum input feedback damp1 damp2 rest
    (p.1 + r.1, p.2 :: r.2)

/-- Series allpass chain for one channel sample (Reverb.cpp lines 142-145). -/
def apChain : List ApFilter → ℚ → ℚ × List ApFilter
  | [], x => (x, [])
  | a :: rest, x =>
    let p := a.process x
    let r := apChain rest p.1
    (r.1, p.2 :: r.2)

/-- Freeverb `ReverbEffect` state (SamplePlayer.h lines 315-403): 8 combs
and 4 allpasses per channel plus the parameter and derived-coefficient
fields. -/
structure ReverbEffect where
  sampleRate : ℚ
  combL : List CombFilter
  combR : List CombFilter
  allpassL : List ApFilter
  allpassR : List ApFilter
  roomSize : ℚ
  damping : ℚ
  wet : ℚ
  wet1 : ℚ
  wet2 : ℚ
  dry : ℚ
  width : ℚ
  feedback : ℚ
  damp1 : ℚ
  damp2 : ℚ
deriving DecidableEq

/-- `ReverbEffect::updateCoefficients` (Reverb.cpp lines 109-123):
feedback = roomSize·SCALE_ROOM + OFFSET_ROOM capped at 0.98, damping
coefficients, and the stereo wet gains. -/
def ReverbEffect.updateCoefficients (st : ReverbEffect) : ReverbEffect :=
  let fb0 := st.roomSize * SCALE_ROOM + OFFSET_ROOM
  let fb := if 49 / 50 < fb0 then 49 / 50 else fb0
  let d1 := st.damping * SCALE_DAMP
  { st with feedback := fb, damp1 := d1, damp2 := 1 - d1,
            wet1 := st.wet * (st.width / 2 + 1 / 2),
            wet2 := st.wet * ((1 - st.width) / 2) }

/-- `ReverbEffect::setSize` (Reverb.cpp lines 155-158). -/
def ReverbEffect.setSize (st : ReverbEffect) (size : ℚ) : ReverbEffect :=
  ReverbEffect.updateCoefficients { st with roomSize := clamp size 0 1 }

/-- `ReverbEffect::setDryWet` (Reverb.cpp lines 160-164): wet = clamped
mix, dry = 1 − wet, then update the coefficients. -/
def ReverbEffect.setDryWet (st : ReverbEffect) (mix : ℚ) : ReverbEffect :=
  ReverbEffect.updateCoefficients
    { st with wet := clamp mix 0 1, dry := 1 - clamp mix 0 1 }

/-- One sample of `ReverbEffect::process` (Reverb.cpp lines 127-152):
scale the input by FIXED_GAIN, run both channels through the comb banks
and allpass chains, then mix
(outL + outR)·0.5·wet·SCALE_WET + in·dry·SCALE_DRY·0.5. -/
def ReverbEffect.step (st : ReverbEffect) (inSample : ℚ) : ℚ × ReverbEffect :=
  let scaledInput := inSample * FIXED_GAIN
  let cl := combSum scaledInput st.feedback st.damp1 st.damp2 st.combL
  let cr := combSum scaledInput st.feedback st.damp1 st.damp2 st.combR
  let al := apChain st.allpassL cl.1
  let ar := apChain st.allpassR cr.1
  let wetMix := (al.1 + ar.1) * (1 / 2) * st.wet * SCALE_WET
  let dryMix := inSample * st.dry * SCALE_DRY * (1 / 2)
  (wetMix + dryMix,
   { st with combL := cl.2, combR := cr.2, allpassL := al.2, allpassR := ar.2 })

/-- `ReverbEffect::process` (Reverb.cpp lines 125-153), block form. -/
def ReverbEffect.process (st : ReverbEffect) (input : List ℚ) :
    List ℚ × ReverbEffect :=
  runBlock ReverbEffect.step st input

end DubSiren.Freeverb

-- ============================================================================
-- AudioEngine, translated from AudioEngine.cpp (part_010) / AudioEngine.h
-- ============================================================================

namespace DubSiren

/-- `AudioEngine` state (AudioEngine.h lines 102-133): the DSP
components, the thread-safe parameters volume / baseFrequency /
pitchEnvMode, the per-sample currentFrequency and the base-frequency
smoother. -/
structure AudioEngine where
  sampleRate : ℚ
  oscillator : Oscillator
  lfo : LFO
  envelope : Envelope
  filter : LowPassFilter
  dcBlocker : DCBlocker
  delay : DelayEffect
  reverb : ReverbEffect
  volume : ℚ
  baseFrequency : ℚ
  pitchEnvMode : PitchEnvelopeMode
  currentFrequency : ℚ
  frequencySmooth : SmoothedValue

/-- Fresh chamber reverb, following the constructor part_009 lines
95-131 at sample rate `sr`: 8 early lines at 13-59 ms, two input
allpasses at 5 / 8.9 ms, 6 combs at 29.7-57.1 ms, one output allpass at
6.7 ms, size 0.5, dryWet 0, damping 0.5, earlyLevel 0.15.  The comb
modulation phases are drawn from std::random_device in the C++
constructor; they are taken as 0 here (no claim depends on them). -/
def ReverbEffect.init (sr : ℕ) : ReverbEffect :=
  let earlyTimes : List ℚ :=
    [13/1000, 19/1000, 23/1000, 29/1000, 37/1000, 43/1000, 51/1000, 59/1000]
  let combTimes : List ℚ :=
    [297/10000, 371/10000, 411/10000, 437/10000, 503/10000, 571/10000]
  let apOfTime : ℚ → AllpassFilter := fun t =>
    let n := (ratTrunc (t * sr)).toNat
    { buffer := List.replicate n 0, writePos := 0, delaySamples := n, feedback := 1/2 }
  { sampleRate := sr
    early := earlyTimes.map (fun t => (List.replicate (ratTrunc (t * sr)).toNat 0, 0))
    inputDiffusion := [apOfTime (5/1000), apOfTime (89/10000)]
    outputDiffusion := apOfTime (67/10000)
    combFilters := combTimes.map (fun t =>
      let n := (ratTrunc (t * sr)).toNat
      { sampleRate := sr, buffer := List.replicate n 0, writePos := 0,
        delaySamples := n, feedback := 7/10, damping := 1/2, damperState := 0,
        modDepthSamples := 2, modRate := 3/10, modPhase := 0 })
    size := 1/2, dryWet := 0, damping := 1/2, earlyLevel := 3/20 }

/-- `AudioEngine` constructor (part_010 lines 8-40): initial volume 0.7,
base frequency 440 Hz, pitch-envelope mode None, frequency smoother
(440, 0.02), sine oscillator, LFO at 4 Hz depth 0, envelope attack
0.01 s release 0.5 s, filter cutoff 2000 Hz, delay dryWet 0.3 feedback
0.5, reverb dryWet 0.35. -/
def AudioEngine.init (sampleRate : ℕ) : AudioEngine :=
  { sampleRate := sampleRate
    oscillator := { sr := sampleRate, phase := 0, freq := 440, wf := .Sine }
    lfo := { sr := sampleRate, phase := 0, freq := 4, depth := 0, wf := .Sine }
    envelope := { sr := sampleRate, stage := .Idle, level := 0,
                  attackTime := 1/100, releaseTime := 1/2 }
    filter := LowPassFilter.setCutoff 2000
      { sr := sampleRate, cutoff := 2000, res := 0, y1 := 0, y2 := 0 }
    dcBlocker := { x1 := 0, y1 := 0 }
    delay := DelayEffect.setDryWet (3/10) (DelayEffect.setFeedback (1/2)
      { sr := sampleRate, buffer := List.replicate (2 * sampleRate) 0,
        writePos := 0, delaySamples := 0, feedback := 0, dryWet := 0 })
    reverb := ReverbEffect.setDryWet (ReverbEffect.init sampleRate) (7/20)
    volume := 7/10
    baseFrequency := 440
    pitchEnvMode := .None
    currentFrequency := 440
    frequencySmooth := { target := 440, current := 440, coeff := 1/50 } }

/-- Oscillator-generation loop of `AudioEngine::process` (part_010
lines 47-51): per sample, pull the next smoothed frequency, set it on
the oscillator and generate one sample.  Returns the frequency trace,
the oscillator block, and the final oscillator / smoother states. -/
def oscLoop (ef : ExtFuns) : Oscillator → SmoothedValue → ℕ →
    List ℚ × List ℚ × Oscillator × SmoothedValue
  | o, s, 0 => ([], [], o, s)
  | o, s, Nat.succ n =>
    let p := s.getNext
    let q := (Oscillator.setFrequency p.1 o).generateSample ef
    let r := oscLoop ef q.2 p.2 n
    (p.1 :: r.1, q.1 :: r.2.1, r.2.2.1, r.2.2.2)

/-- Filter loop of `AudioEngine::process` (part_010 lines 60-67): the
LFO block modulates the cutoff by ±2 octaves around the base cutoff,
clamped [100, 8000], before each sample is filtered. -/
def filterLoop (ef : ExtFuns) (baseCutoff : ℚ) :
    LowPassFilter → List ℚ → List ℚ → List ℚ × LowPassFilter
  | fl, l :: ls, x :: xs =>
    let modCutoff := clamp (baseCutoff * ef.pow2 (l * 2)) 100 8000
    let p := (fl.setCutoff modCutoff).processSample ef x
    let r := filterLoop ef baseCutoff p.2 ls xs
    (p.1 :: r.1, r.2)
  | fl, _, _ => ([], fl)

/-- Envelope gate of `AudioEngine::process` (part_010 lines 72-79):
zero below 10⁻³, multiply otherwise. -/
def gateLoop : List ℚ → List ℚ → List ℚ
  | e :: es, x :: xs => (if e < 1/1000 then 0 else x * e) :: gateLoop es xs
  | _, _ => []

/-- Output stage of `AudioEngine::process` (part_010 lines 90-96):
apply the volume, clamp to [-1, 1] and duplicate each sample to the
interleaved stereo output. -/
def stereoClamp (vol : ℚ) : List ℚ → List ℚ
  | [] => []
  | x :: xs =>
    let sample := clamp (x * vol) (-1) 1
    sample :: sample :: stereoClamp vol xs

/-- `AudioEngine::process` (part_010 lines 42-97): smoothed-frequency
oscillator block, LFO block, envelope block, LFO-modulated filter
(cutoff restored afterwards), envelope gate, delay, reverb, DC blocker,
then volume, clamp and stereo interleave. -/
def AudioEngine.process (ef : ExtFuns) (st : AudioEngine) (numFrames : ℕ) :
    AudioEngine × List ℚ :=
  let fs0 := st.frequencySmooth.setTarget st.baseFrequency
  let og := oscLoop ef st.oscillator fs0 numFrames
  let lg := st.lfo.generate ef numFrames
  let eg := st.envelope.generate numFrames
  let baseCutoff := st.filter.cutoff
  let fg := filterLoop ef baseCutoff st.filter lg.1 og.2.1
  let filterRestored := fg.2.setCutoff baseCutoff
  let gated := gateLoop eg.1 fg.1
  let dg := st.delay.process gated
  let rg := ReverbEffect.process ef st.reverb dg.1
  let bg := st.dcBlocker.process rg.1
  let out := stereoClamp st.volume bg.1
  ({ st with oscillator := og.2.2.1, frequencySmooth := og.2.2.2,
             currentFrequency := og.1.getLastD st.currentFrequency,
             lfo := lg.2, envelope := eg.2, filter := filterRestored,
             delay := dg.2, reverb := rg.2, dcBlocker := bg.2 }, out)

/-- Instantaneous-frequency trace of a block: the successive values
written to the oscillator by the loop of part_010 lines 44-49. -/
def AudioEngine.freqTrace (ef : ExtFuns) (st : AudioEngine) (n : ℕ) : List ℚ :=
  (oscLoop ef st.oscillator (st.frequencySmooth.setTarget st.baseFrequency) n).1

/-- `AudioEngine::trigger` (part_010 lines 99-103): reset the
oscillator phase and put the envelope into Attack. -/
def AudioEngine.trigger (st : AudioEngine) : AudioEngine :=
  { st with oscillator := st.oscillator.resetPhase,
            envelope := st.envelope.trigger }

/-- `AudioEngine::release` (part_010 lines 105-108). -/
def AudioEngine.release (st : AudioEngine) : AudioEngine :=
  { st with envelope := st.envelope.doRelease }

/-- `AudioEngine::setVolume` (part_010 lines 141-143): clamp [0, 1]. -/
def AudioEngine.setVolume (st : AudioEngine) (vol : ℚ) : AudioEngine :=
  { st with volume := clamp vol 0 1 }

/-- `AudioEngine::setFrequency` (part_010 lines 145-147): clamp
[20, 20000]. -/
def AudioEngine.setFrequency (st : AudioEngine) (freq : ℚ) : AudioEngine :=
  { st with baseFrequency := clamp freq 20 20000 }

/-- `AudioEngine::getVolume` (AudioEngine.h line 97). -/
def AudioEngine.getVolume (st : AudioEngine) : ℚ := st.volume

/-- `AudioEngine::getFrequency` (AudioEngine.h line 98). -/
def AudioEngine.getFrequency (st : AudioEngine) : ℚ := st.baseFrequency

/-- `AudioEngine::setWaveform(Waveform)` (part_010 lines 149-151). -/
def AudioEngine.setWaveform (st : AudioEngine) (wf : Waveform) : AudioEngine :=
  { st with oscillator := st.oscillator.setWaveform wf }

/-- `AudioEngine::setWaveform(int)` (part_010 lines 153-155):
`setWaveform(static_cast<Waveform>(index % 4))` with the C truncated
remainder. -/
def AudioEngine.setWaveformIdx (st : AudioEngine) (index : ℤ) : AudioEngine :=
  st.setWaveform (castWaveform (waveformCastTag index))

/-- `AudioEngine::setAttackTime` (part_010 lines 157-159). -/
def AudioEngine.setAttackTime (st : AudioEngine) (seconds : ℚ) : AudioEngine :=
  { st with envelope := st.envelope.setAttack seconds }

/-- `AudioEngine::setReleaseTime` (part_010 lines 161-163). -/
def AudioEngine.setReleaseTime (st : AudioEngine) (seconds : ℚ) : AudioEngine :=
  { st with envelope := st.envelope.setRelease seconds }

/-- `AudioEngine::setLfoRate` (part_010 lines 165-167). -/
def AudioEngine.setLfoRate (st : AudioEngine) (rate : ℚ) : AudioEngine :=
  { st with lfo := st.lfo.setFrequency rate }

/-- `AudioEngine::setLfoDepth` (part_010 lines 169-171). -/
def AudioEngine.setLfoDepth (st : AudioEngine) (depth : ℚ) : AudioEngine :=
  { st with lfo := st.lfo.setDepth depth }

/-- `AudioEngine::setLfoWaveform(Waveform)` (part_010 lines 173-175). -/
def AudioEngine.setLfoWaveform (st : AudioEngine) (wf : Waveform) : AudioEngine :=
  { st with lfo := st.lfo.setWaveform wf }

/-- `AudioEngine::setLfoWaveform(int)` (part_010 lines 177-179). -/
def AudioEngine.setLfoWaveformIdx (st : AudioEngine) (index : ℤ) : AudioEngine :=
  st.setLfoWaveform (castWaveform (lfoWaveformCastTag index))

/-- `AudioEngine::setFilterCutoff` (part_010 lines 181-183). -/
def AudioEngine.setFilterCutoff (st : AudioEngine) (freq : ℚ) : AudioEngine :=
  { st with filter := st.filter.setCutoff freq }

/-- `AudioEngine::setFilterResonance` (part_010 lines 185-187). -/
def AudioEngine.setFilterResonance (st : AudioEngine) (res : ℚ) : AudioEngine :=
  { st with filter := st.filter.setResonance res }

/-- `AudioEngine::setDelayTime` (part_010 lines 189-191). -/
def AudioEngine.setDelayTime (st : AudioEngine) (seconds : ℚ) : AudioEngine :=
  { st with delay := st.delay.setDelayTime seconds }

/-- `AudioEngine::setDelayFeedback` (part_010 lines 193-195). -/
def AudioEngine.setDelayFeedback (st : AudioEngine) (fb : ℚ) : AudioEngine :=
  { st with delay := st.delay.setFeedback fb }

/-- `AudioEngine::setDelayMix` (part_010 lines 197-199). -/
def AudioEngine.setDelayMix (st : AudioEngine) (mix : ℚ) : AudioEngine :=
  { st with delay := st.delay.setDryWet mix }

/-- `AudioEngine::setReverbSize` (part_010 lines 201-203). -/
def AudioEngine.setReverbSize (st : AudioEngine) (size : ℚ) : AudioEngine :=
  { st with reverb := st.reverb.setSize size }

/-- `AudioEngine::setReverbMix` (part_010 lines 205-207). -/
def AudioEngine.setReverbMix (st : AudioEngine) (mix : ℚ) : AudioEngine :=
  { st with reverb := st.reverb.setDryWet mix }

/-- `AudioEngine::setReverbDamping` (part_010 lines 209-211). -/
def AudioEngine.setReverbDamping (st : AudioEngine) (damp : ℚ) : AudioEngine :=
  { st with reverb := st.reverb.setDamping damp }

/-- `AudioEngine::setPitchEnvelopeMode` (part_010 lines 213-215). -/
def AudioEngine.setPitchEnvelopeMode (st : AudioEngine) (mode : PitchEnvelopeMode) :
    AudioEngine :=
  { st with pitchEnvMode := mode }

/-- `AudioEngine::cyclePitchEnvelope` (part_010 lines 110-135):
None → Up → Down → None. -/
def AudioEngine.cyclePitchEnvelope (st : AudioEngine) : AudioEngine :=
  { st with pitchEnvMode :=
      match st.pitchEnvMode with
      | .None => .Up
      | .Up => .Down
      | .Down => .None }

-- ============================================================================
-- Control surface, translated from GPIOController.cpp / GPIOController header
-- ============================================================================

/-- Parameter bank (SamplePlayer.h lines 129-132): A when shift is up,
B while shift is held. -/
inductive Bank where
  | A
  | B
deriving DecidableEq

/-- Encoder-addressable parameter names, mirroring the `bankAParams` /
`bankBParams` string arrays of `GPIOController::handleEncoder`
(GPIOController.cpp lines 425-427). -/
inductive EncParam where
  | volume
  | filter_freq
  | filter_res
  | delay_feedback
  | reverb_mix
  | release
  | delay_time
  | reverb_size
  | osc_waveform
  | lfo_waveform
deriving DecidableEq

/-- Bank A parameter array (GPIOController.cpp line 425). -/
def bankAParams : List EncParam :=
  [.volume, .filter_freq, .filter_res, .delay_feedback, .reverb_mix]

/-- Bank B parameter array (GPIOController.cpp line 427). -/
def bankBParams : List EncParam :=
  [.release, .delay_time, .reverb_size, .osc_waveform, .lfo_waveform]

/-- `GPIOController::Parameters` with its in-class defaults
(SamplePlayer.h lines 240-254). -/
structure Parameters where
  volume : ℚ := 7/10
  filterFreq : ℚ := 2000
  filterRes : ℚ := 1
  delayFeedback : ℚ := 1/2
  reverbMix : ℚ := 7/20
  release : ℚ := 1/2
  delayTime : ℚ := 1/5
  reverbSize : ℚ := 1/2
  oscWaveform : ℤ := 0
  lfoWaveform : ℤ := 0
deriving DecidableEq

/-- Control-surface state (SamplePlayer.h lines 205-278): the engine
reference, the Parameters snapshot, the current bank and the shift
flag. -/
structure GPIOController where
  engine : AudioEngine
  params : Parameters
  currentBank : Bank
  shiftPressed : Bool

/-- `GPIOController::handleEncoder` (GPIOController.cpp lines 421-499):
select the parameter for the current bank and encoder index, mutate it
by step·direction with its clamp (waveform indices wrap with
`(x + direction + 4) % 4`), and write the new value to the engine.  An
encoder index outside the arrays reads past the C++ array (line 429);
that case is modelled as a no-op and never arises (5 encoders). -/
def GPIOController.handleEncoder (cs : GPIOController) (encoderIndex : ℕ)
    (direction : ℤ) : GPIOController :=
  let arr := if cs.currentBank = Bank.A then bankAParams else bankBParams
  match arr.get? encoderIndex with
  | none => cs
  | some paramName =>
    match paramName with
    | .volume =>
      let v := clamp (cs.params.volume + (1/50) * direction) 0 1
      { cs with params := { cs.params with volume := v },
                engine := cs.engine.setVolume v }
    | .filter_freq =>
      let v := clamp (cs.params.filterFreq + 50 * direction) 20 20000
      { cs with params := { cs.params with filterFreq := v },
                engine := cs.engine.setFilterCutoff v }
    | .filter_res =>
      let v := clamp (cs.params.filterRes + (1/50) * direction) 0 (19/20)
      { cs with params := { cs.params with filterRes := v },
                engine := cs.engine.setFilterResonance v }
    | .delay_feedback =>
      let v := clamp (cs.params.delayFeedback + (1/50) * direction) 0 (19/20)
      { cs with params := { cs.params with delayFeedback := v },
                engine := cs.engine.setDelayFeedback v }
    | .reverb_mix =>
      let v := clamp (cs.params.reverbMix + (1/50) * direction) 0 1
      { cs with params := { cs.params with reverbMix := v },
                engine := cs.engine.setReverbMix v }
    | .release =>
      let v := clamp (cs.params.release + (1/10) * direction) (1/100) 5
      { cs with params := { cs.params with release := v },
                engine := cs.engine.setReleaseTime v }
    | .delay_time =>
      let v := clamp (cs.params.delayTime + (1/20) * direction) (1/1000) 2
      { cs with params := { cs.params with delayTime := v },
                engine := cs.engine.setDelayTime v }
    | .reverb_size =>
      let v := clamp (cs.params.reverbSize + (1/50) * direction) 0 1
      { cs with params := { cs.params with reverbSize := v },
                engine := cs.engine.setReverbSize v }
    | .osc_waveform =>
      let v := Int.tmod (cs.params.oscWaveform + direction + 4) 4
      { cs with params := { cs.params with oscWaveform := v },
                engine := cs.engine.setWaveformIdx v }
    | .lfo_waveform =>
      let v := Int.tmod (cs.params.lfoWaveform + direction + 4) 4
      { cs with params := { cs.params with lfoWaveform := v },
                engine := cs.engine.setLfoWaveformIdx v }

/-- `GPIOController::onShiftPress` (GPIOController.cpp lines 516-520):
mark shift held and switch to Bank B. -/
def GPIOController.onShiftPress (cs : GPIOController) : GPIOController :=
  { cs with shiftPressed := true, currentBank := Bank.B }

/-- `GPIOController::onShiftRelease` (GPIOController.cpp lines
522-526): clear shift and restore Bank A. -/
def GPIOController.onShiftRelease (cs : GPIOController) : GPIOController :=
  { cs with shiftPressed := false, currentBank := Bank.A }

/-- `GPIOController::onTriggerPress` (GPIOController.cpp lines 501-504). -/
def GPIOController.onTriggerPress (cs : GPIOController) : GPIOController :=
  { cs with engine := cs.engine.trigger }

/-- `GPIOController::onTriggerRelease` (GPIOController.cpp lines 506-509). -/
def GPIOController.onTriggerRelease (cs : GPIOController) : GPIOController :=
  { cs with engine := cs.engine.release }

/-- `GPIOController::onPitchEnvPress` (GPIOController.cpp lines 511-514). -/
def GPIOController.onPitchEnvPress (cs : GPIOController) : GPIOController :=
  { cs with engine := cs.engine.cyclePitchEnvelope }

-- ============================================================================
-- Sample player, translated from SamplePlayer.cpp
-- ============================================================================

/-- `SamplePlayer` state (SamplePlayer.h lines 69-80): the interleaved
stereo sample data, the playing and loop flags, the playback position
(in samples) and the volume. -/
structure SamplePlayer where
  sampleRate : ℚ
  sampleData : List ℚ
  playing : Bool
  loop : Bool
  playbackPosition : ℕ
  volume : ℚ
deriving DecidableEq

/-- Per-frame playback loop of `SamplePlayer::process` (SamplePlayer.cpp
lines 167-184): at the end of the data, either wrap to the start (loop)
or stop and zero-fill the rest of the block; otherwise copy the stereo
pair scaled by the volume and advance by two samples.  Returns the
final playing flag, the final position and the interleaved output. -/
def processFrames (data : List ℚ) (lp : Bool) (vol : ℚ) :
    ℕ → ℕ → Bool × ℕ × List ℚ
  | pos, 0 => (true, pos, [])
  | pos, Nat.succ n =>
    if data.length ≤ pos then
      if lp then
        let r := processFrames data lp vol 2 n
        (r.1, r.2.1, data.getD 0 0 * vol :: data.getD 1 0 * vol :: r.2.2)
      else
        (false, pos, List.replicate (2 * (n + 1)) 0)
    else
      let r := processFrames data lp vol (pos + 2) n
      (r.1, r.2.1, data.getD pos 0 * vol :: data.getD (pos + 1) 0 * vol :: r.2.2)

/-- `SamplePlayer::process` (SamplePlayer.cpp lines 154-187): silence
when not playing or nothing is loaded (state untouched); otherwise run
the playback loop and store the final playing flag and position. -/
def SamplePlayer.process (st : SamplePlayer) (numFrames : ℕ) :
    SamplePlayer × List ℚ :=
  if st.playing = false ∨ st.sampleData.isEmpty then
    (st, List.replicate (2 * numFrames) 0)
  else
    let r := processFrames st.sampleData st.loop st.volume st.playbackPosition numFrames
    ({ st with playing := r.1, playbackPosition := r.2.1 }, r.2.2)

/-- `SamplePlayer::trigger` (SamplePlayer.cpp lines 126-136): no-op
when nothing is loaded, else rewind and start playing. -/
def SamplePlayer.doTrigger (st : SamplePlayer) : SamplePlayer :=
  if st.sampleData.isEmpty then st
  else { st with playbackPosition := 0, playing := true }

/-- `SamplePlayer::stop` (SamplePlayer.cpp lines 138-143). -/
def SamplePlayer.doStop (st : SamplePlayer) : SamplePlayer :=
  { st with playing := false, playbackPosition := 0 }

/-- Number of output frames of `SamplePlayer::resample`
(SamplePlayer.cpp lines 201-203):
`static_cast<size_t>(inputFrames * ratio)` with
ratio = outputRate/inputRate, i.e. ⌊inputFrames·outputRate/inputRate⌋
(the C++ value is computed in double precision; the exact rational
floor is used here). -/
def resampleOutputFrames (inputFrames inputRate outputRate : ℕ) : ℕ :=
  inputFrames * outputRate / inputRate

/-- Source frame selected by `SamplePlayer::resample` for one output
frame (SamplePlayer.cpp lines 208-215): srcFrame = ⌊outFrame/ratio⌋,
then the end clamp `if (srcFrame + 1 >= inputFrames) srcFrame =
inputFrames - 1`. -/
def resampleSrcFrame (inputFrames inputRate outputRate outFrame : ℕ) : ℕ :=
  let srcFrame := outFrame * inputRate / outputRate
  if inputFrames ≤ srcFrame + 1 then inputFrames - 1 else srcFrame

/-- Indices at which `SamplePlayer::resample` reads the input vector
(SamplePlayer.cpp lines 217-220): for every output frame and channel,
`sample1` reads srcFrame·channels + ch and `sample2` reads
(srcFrame + 1)·channels + ch. -/
def resampleReadIndices (inputLen channels inputRate outputRate : ℕ) : List ℕ :=
  let inputFrames := inputLen / channels
  let outputFrames := resampleOutputFrames inputFrames inputRate outputRate
  (List.range outputFrames).flatMap (fun outFrame =>
    let srcFrame := resampleSrcFrame inputFrames inputRate outputRate outFrame
    (List.range channels).flatMap (fun ch =>
      [srcFrame * channels + ch, (srcFrame + 1) * channels + ch]))

/-- `SamplePlayer::resample` (SamplePlayer.cpp lines 193-224): linear
interpolation; out-of-range reads of the C++ vector are modelled by
`getD` with default 0. -/
def resample (input : List ℚ) (inputRate outputRate channels : ℕ) : List ℚ :=
  if inputRate = outputRate then input
  else
    let inputFrames := input.length / channels
    let outputFrames := resampleOutputFrames inputFrames inputRate outputRate
    (List.range outputFrames).flatMap (fun outFrame =>
      let srcPos : ℚ := (outFrame * inputRate : ℕ) / (outputRate : ℚ)
      let srcFrame0 := outFrame * inputRate / outputRate
      let hitEnd := decide (inputFrames ≤ srcFrame0 + 1)
      let srcFrame := if hitEnd then inputFrames - 1 else srcFrame0
      let frac : ℚ := if hitEnd then 0 else srcPos - (srcFrame : ℚ)
      (List.range channels).map (fun ch =>
        let sample1 := input.getD (srcFrame * channels + ch) 0
        let sample2 := input.getD ((srcFrame + 1) * channels + ch) 0
        sample1 + frac * (sample2 - sample1)))

-- ============================================================================
-- Theorems
-- ============================================================================

/-- C3: after `setVolume(v)` a `getVolume()` read-back returns v
clamped to [0, 1]; after `setFrequency(f)` a `getFrequency()`
read-back returns f clamped to [20, 20000]; the setters are total
functions (never throw) and out-of-range writes land on the clamped
boundary value. -/
theorem setVolume_setFrequency_clamped_readback (st : AudioEngine) (v f : ℚ) :
    (st.setVolume v).getVolume = clamp v 0 1 ∧
    0 ≤ (st.setVolume v).getVolume ∧ (st.setVolume v).getVolume ≤ 1 ∧
    (st.setFrequency f).getFrequency = clamp f 20 20000 ∧
    20 ≤ (st.setFrequency f).getFrequency ∧
    (st.setFrequency f).getFrequency ≤ 20000 := by
  have hv := clamp_le v 0 1 (by norm_num)
  have hf := clamp_le f 20 20000 (by norm_num)
  exact ⟨rfl, hv.1, hv.2, rfl, hf.1, hf.2⟩

/-- C4 counterexample: at index −1 the cast argument computed by
`setWaveform(int)` is the C truncated remainder −1 % 4 = −1, which is
not the mathematical residue 3 and is not a valid waveform tag, so the
claim that every integer index selects the tag "index taken mod 4, a
value in {0,1,2,3}" fails at index −1. -/
theorem setWaveform_negative_index_invalid :
    waveformCastTag (-1) = -1 ∧
    waveformOfTag (waveformCastTag (-1)) = none ∧
    ¬ waveformCastTag (-1) = Int.emod (-1) 4 := by
  refine ⟨by decide, by decide, by decide⟩

/-- C4 amended: for every nonnegative integer index, `setWaveform(int)`
and `setLfoWaveform(int)` select the waveform whose tag is index mod 4,
a value in {0,1,2,3}; for negative indices the C `%` produces a
nonpositive value that is not a valid tag. -/
theorem setWaveformIdx_nonneg_mod4 (st : AudioEngine) (index : ℤ)
    (h : 0 ≤ index) :
    waveformCastTag index = index % 4 ∧
    lfoWaveformCastTag index = index % 4 ∧
    0 ≤ index % 4 ∧ index % 4 < 4 ∧
    wfTag ((st.setWaveformIdx index).oscillator.wf) = index % 4 ∧
    wfTag ((st.setLfoWaveformIdx index).lfo.wf) = index % 4 := by
  have htm : Int.tmod index 4 = index % 4 := by
    rw [Int.tmod_eq_emod h (by norm_num)]
  have h0 : 0 ≤ index % 4 := Int.emod_nonneg index (by norm_num)
  have h4 : index % 4 < 4 := Int.emod_lt_of_pos index (by norm_num)
  refine ⟨htm, htm, h0, h4, ?_, ?_⟩
  · show wfTag (castWaveform (waveformCastTag index)) = index % 4
    rw [waveformCastTag, htm]
    interval_cases h : index % 4 <;> simp [castWaveform, wfTag]
  · show wfTag (castWaveform (lfoWaveformCastTag index)) = index % 4
    rw [lfoWaveformCastTag, htm]
    interval_cases h : index % 4 <;> simp [castWaveform, wfTag]

/-- C4 witness: at index 7 both setters select the waveform with tag
7 mod 4 = 3 (Triangle). -/
theorem setWaveformIdx_nonneg_mod4_witness :
    (0 ≤ (7 : ℤ)) ∧
    wfTag (((AudioEngine.init 48000).setWaveformIdx 7).oscillator.wf) = 7 % 4 ∧
    wfTag (((AudioEngine.init 48000).setLfoWaveformIdx 7).lfo.wf) = 7 % 4 :=
  ⟨by decide,
   (setWaveformIdx_nonneg_mod4 (AudioEngine.init 48000) 7 (by decide)).2.2.2.2.1,
   (setWaveformIdx_nonneg_mod4 (AudioEngine.init 48000) 7 (by decide)).2.2.2.2.2⟩

/-- C6: pressing shift switches to Bank B, pressing it again while held
changes nothing (the transition is idempotent on the whole state), and
releasing shift restores Bank A, from every prior control-surface
state. -/
theorem shift_press_idempotent_release_restores (cs : GPIOController) :
    (cs.onShiftPress).currentBank = Bank.B ∧
    (cs.onShiftPress).onShiftPress = cs.onShiftPress ∧
    (cs.onShiftRelease).currentBank = Bank.A :=
  ⟨rfl, rfl, rfl⟩

/-- C7: after `setSize(s)` on the chamber reverb, the feedback gain of
every damped comb filter equals 0.4 + clamp(s,0,1)·0.45, and this value
is strictly below 0.98. -/
theorem setSize_comb_feedback (st : ReverbEffect) (s : ℚ)
    (c0 : DampedCombFilter) (i : ℕ)
    (h : i < (st.setSize s).combFilters.length) :
    ((st.setSize s).combFilters.getD i c0).feedback
      = 2 / 5 + clamp s 0 1 * (9 / 20) ∧
    ((st.setSize s).combFilters.getD i c0).feedback < 49 / 50 := by
  have hc := clamp_le s 0 1 (by norm_num)
  have hfb : ((st.setSize s).combFilters.getD i c0).feedback
      = 2 / 5 + clamp s 0 1 * (9 / 20) := by
    have hlen : i < st.combFilters.length := by
      simpa [ReverbEffect.setSize, ReverbEffect.updateParameters] using h
    have hget : st.combFilters[i]? = some st.combFilters[i] :=
      List.getElem?_eq_getElem hlen
    simp [ReverbEffect.setSize, ReverbEffect.updateParameters, List.getD,
      List.getElem?_map, hget, DampedCombFilter.setFeedback,
      DampedCombFilter.setDamping]
  refine ⟨hfb, ?_⟩
  rw [hfb]
  have : clamp s 0 1 * (9 / 20) ≤ 1 * (9 / 20) :=
    mul_le_mul_of_nonneg_right hc.2 (by norm_num)
  linarith

/-- C7 witness: the fresh reverb at 48 kHz with size 0.5 has 6 combs,
and the first comb's feedback after `setSize(1/2)` is below 0.98. -/
theorem setSize_comb_feedback_witness :
    0 < (((ReverbEffect.init 48000).setSize (1/2)).combFilters).length ∧
    ((((ReverbEffect.init 48000).setSize (1/2)).combFilters.getD 0
        { sampleRate := 0, buffer := [], writePos := 0, delaySamples := 0,
          feedback := 0, damping := 0, damperState := 0, modDepthSamples := 0,
          modRate := 0, modPhase := 0 }).feedback) < 49 / 50 := by
  have hlen : 0 < (((ReverbEffect.init 48000).setSize (1/2)).combFilters).length := by
    simp [ReverbEffect.init, ReverbEffect.setSize, ReverbEffect.updateParameters]
  exact ⟨hlen,
    (setSize_comb_feedback (ReverbEffect.init 48000) (1/2) _ 0 hlen).2⟩

/-- C5: from the default parameters (volume 0.7, release 0.5), with
shift pressed one +1 tick of encoder 1 sets params.release to 0.6 and
writes 0.6 into the engine's release time; after releasing shift, one
+1 tick of encoder 1 sets params.volume to 0.72 and writes 0.72 into
the engine's volume, while params.release stays at 0.6. -/
theorem bank_switch_param_sequence (e : AudioEngine) :
    ((({ engine := e, params := {}, currentBank := .A, shiftPressed := false
        : GPIOController }).onShiftPress.handleEncoder 0 1).params.release
      = 3 / 5) ∧
    ((({ engine := e, params := {}, currentBank := .A, shiftPressed := false
        : GPIOController }).onShiftPress.handleEncoder 0 1).engine.envelope.releaseTime
      = 3 / 5) ∧
    (((({ engine := e, params := {}, currentBank := .A, shiftPressed := false
        : GPIOController }).onShiftPress.handleEncoder 0 1).onShiftRelease.handleEncoder
        0 1).params.volume = 18 / 25) ∧
    (((({ engine := e, params := {}, currentBank := .A, shiftPressed := false
        : GPIOController }).onShiftPress.handleEncoder 0 1).onShiftRelease.handleEncoder
        0 1).engine.volume = 18 / 25) ∧
    (((({ engine := e, params := {}, currentBank := .A, shiftPressed := false
        : GPIOController }).onShiftPress.handleEncoder 0 1).onShiftRelease.handleEncoder
        0 1).params.release = 3 / 5) := by
  refine ⟨?_, ?_, ?_, ?_, ?_⟩ <;>
    · simp [GPIOController.handleEncoder, GPIOController.onShiftPress,
        GPIOController.onShiftRelease, bankAParams, bankBParams,
        AudioEngine.setReleaseTime, AudioEngine.setVolume,
        Envelope.setRelease]
      norm_num [clamp]

theorem mixLoop_dryWet_zero (lvl : ℚ) :
    ∀ (xs es cs : List ℚ), xs.length ≤ es.length → xs.length ≤ cs.length →
      mixLoop 0 lvl xs es cs = xs := by
  intro xs
  induction xs with
  | nil => intro es cs _ _; cases es <;> cases cs <;> rfl
  | cons x xs ih =>
    intro es cs he hc
    cases es with
    | nil => simp at he
    | cons e es =>
      cases cs with
      | nil => simp at hc
      | cons c cs =>
        simp only [List.length_cons, Nat.succ_le_succ_iff] at he hc
        simp only [mixLoop, ih es cs he hc, List.cons.injEq, and_true]
        ring

theorem freeverb_step_output (st : Freeverb.ReverbEffect) (x : ℚ)
    (hw : st.wet = 0) (hd : st.dry = 1) :
    (Freeverb.ReverbEffect.step st x).1 = x := by
  simp only [Freeverb.ReverbEffect.step, hw, hd, Freeverb.SCALE_DRY]
  ring

theorem freeverb_step_params (st : Freeverb.ReverbEffect) (x : ℚ) :
    (Freeverb.ReverbEffect.step st x).2.wet = st.wet ∧
    (Freeverb.ReverbEffect.step st x).2.dry = st.dry := ⟨rfl, rfl⟩

theorem freeverb_process_id (l : List ℚ) :
    ∀ st : Freeverb.ReverbEffect, st.wet = 0 → st.dry = 1 →
      (Freeverb.ReverbEffect.process st l).1 = l := by
  induction l with
  | nil => intro st _ _; rfl
  | cons x xs ih =>
    intro st hw hd
    simp only [Freeverb.ReverbEffect.process] at ih ⊢
    simp only [runBlock, List.cons.injEq]
    constructor
    · exact freeverb_step_output st x hw hd
    · exact ih _ ((freeverb_step_params st x).1.trans hw)
        ((freeverb_step_params st x).2.trans hd)

/-- C8: with the dry/wet mix set to 0 via `setDryWet(0)`, the reverb's
`process` is the identity on the signal — exactly, hence within 1 ULP —
for both the chamber variant (part_009) and the Freeverb variant
(Reverb.cpp); the filter states still advance but every output sample
equals the corresponding input sample. -/
theorem reverb_dryWet_zero_identity (ef : ExtFuns) (st : ReverbEffect)
    (input : List ℚ) (st2 : Freeverb.ReverbEffect) (input2 : List ℚ) :
    (ReverbEffect.process ef (st.setDryWet 0) input).1 = input ∧
    (Freeverb.ReverbEffect.process (st2.setDryWet 0) input2).1 = input2 := by
  constructor
  · have hz : (st.setDryWet 0).dryWet = 0 := by norm_num [ReverbEffect.setDryWet, clamp]
    simp only [ReverbEffect.process, hz]
    exact mixLoop_dryWet_zero _ input _ _
      (le_of_eq (runBlock_length _ _ _).symm)
      (le_of_eq (by
        rw [runBlock_length, runBlock_length, runBlock_length]))
  · have hw : (st2.setDryWet 0).wet = 0 := by
      norm_num [Freeverb.ReverbEffect.setDryWet,
        Freeverb.ReverbEffect.updateCoefficients, clamp]
    have hd : (st2.setDryWet 0).dry = 1 := by
      norm_num [Freeverb.ReverbEffect.setDryWet,
        Freeverb.ReverbEffect.updateCoefficients, clamp]
    exact freeverb_process_id input2 _ hw hd

theorem stereoClamp_getD_le (vol : ℚ) (l : List ℚ) :
    ∀ i : ℕ, |(stereoClamp vol l).getD i 0| ≤ 1 := by
  induction l with
  | nil => intro i; simp [stereoClamp]
  | cons x xs ih =>
    intro i
    have hx : |clamp (x * vol) (-1) 1| ≤ 1 := by
      have h := clamp_le (x * vol) (-1) 1 (by norm_num)
      rw [abs_le]; exact ⟨h.1, h.2⟩
    match i with
    | 0 => simpa [stereoClamp] using hx
    | 1 => simpa [stereoClamp] using hx
    | Nat.succ (Nat.succ n) => simpa [stereoClamp] using ih n

/-- C2: every sample y written to the interleaved output buffer by
`AudioEngine::process` satisfies |y| ≤ 1, for every external-function
choice, every engine state and every block length (out-of-range reads
of the output list return 0, also of magnitude ≤ 1). -/
theorem engine_process_output_bounded (ef : ExtFuns) (st : AudioEngine)
    (n i : ℕ) : |(AudioEngine.process ef st n).2.getD i 0| ≤ 1 := by
  simp only [AudioEngine.process]
  exact stereoClamp_getD_le _ _ i

theorem oscLoop_freqs (ef : ExtFuns) :
    ∀ (n : ℕ) (o : Oscillator) (s : SmoothedValue),
      (oscLoop ef o s n).1 = smootherTrace s n := by
  intro n
  induction n with
  | zero => intro o s; rfl
  | succ m ih =>
    intro o s
    simp only [oscLoop, smootherTrace, ih]

/-- Concrete external functions for evaluating the embedding at
witness points (their values are irrelevant to every claim proved with
them). -/
def efZero : ExtFuns :=
  { sinr := fun _ => 0, twoPi := 0, alphaOf := fun _ => 0, pow2 := fun _ => 0 }

/-- Engine set up exactly as in the pitch-envelope scenario:
setPitchEnvelopeMode(Up), setFrequency(200), setAttackTime(0.1),
trigger(), starting from the freshly constructed engine at 48 kHz. -/
def engC1 : AudioEngine :=
  ((((AudioEngine.init 48000).setPitchEnvelopeMode .Up).setFrequency
      200).setAttackTime (1/10)).trigger

/-- C1 counterexample: in the scenario setPitchEnvelopeMode(Up),
setFrequency(200), setAttackTime(0.1), trigger(), the instantaneous
oscillator frequency at t = 0 (the first value of the block frequency
trace) is 435.2 Hz — the smoother's first step from the default 440 Hz
toward 200 Hz — and not 100 Hz (±1 Hz) as the claim states: the
process loop never consults the pitch-envelope mode. -/
theorem pitch_envelope_claim_false :
    (engC1.freqTrace efZero 4800).getD 0 0 = 2176 / 5 ∧
    ¬ (99 ≤ (2176 / 5 : ℚ) ∧ (2176 / 5 : ℚ) ≤ 101) := by
  constructor
  · rw [AudioEngine.freqTrace, oscLoop_freqs]
    have h : (smootherTrace
        (engC1.frequencySmooth.setTarget engC1.baseFrequency) 4800).getD 0 0
        = (engC1.frequencySmooth.setTarget engC1.baseFrequency).getNext.1 := rfl
    rw [h]
    norm_num [engC1, AudioEngine.init, AudioEngine.setPitchEnvelopeMode,
      AudioEngine.setFrequency, AudioEngine.setAttackTime, AudioEngine.trigger,
      SmoothedValue.setTarget, SmoothedValue.getNext, clamp]
  · norm_num

/-- C1 amended: the pitch-envelope mode has no effect on the produced
audio — for every engine state, mode and block length, the
instantaneous-frequency trace and the output block after trigger() are
identical to those with the mode left unchanged; the frequency simply
follows the smoothed base frequency. -/
theorem pitch_envelope_mode_ignored (ef : ExtFuns) (st : AudioEngine)
    (m : PitchEnvelopeMode) (n : ℕ) :
    ((st.setPitchEnvelopeMode m).trigger).freqTrace ef n
      = (st.trigger).freqTrace ef n ∧
    (((st.setPitchEnvelopeMode m).trigger).process ef n).2
      = ((st.trigger).process ef n).2 :=
  ⟨rfl, rfl⟩

theorem getD_replicate_zero (n j : ℕ) :
    (List.replicate n (0 : ℚ)).getD j 0 = 0 := by
  induction n generalizing j with
  | zero => simp [List.getD]
  | succ m ih =>
    match j with
    | 0 => rfl
    | Nat.succ k => simp only [List.replicate, List.getD_cons_succ]; exact ih k

theorem processFrames_end_stop (data : List ℚ) (vol : ℚ) :
    ∀ (n p : ℕ), 2 ∣ data.length → 2 ∣ p → 1 ≤ n →
      data.length + 2 ≤ p + 2 * n →
      (processFrames data false vol p n).1 = false ∧
      ∀ j, 2 * ((data.length - p + 1) / 2) ≤ j →
        (processFrames data false vol p n).2.2.getD j 0 = 0 := by
  intro n
  induction n with
  | zero => intro p _ _ h1 _; exact absurd h1 (by norm_num)
  | succ m ih =>
    intro p hd hp _ hend
    by_cases hple : data.length ≤ p
    · constructor
      · simp [processFrames, hple]
      · intro j _
        simp only [processFrames, hple, if_true, if_pos, Bool.false_eq_true,
          if_false]
        exact getD_replicate_zero (2 * (m + 1)) j
    · push_neg at hple
      have hp2 : p + 2 ≤ data.length := by omega
      have hm1 : 1 ≤ m := by omega
      have hrec := ih (p + 2) hd (by omega) hm1 (by omega)
      constructor
      · simp only [processFrames, if_neg (not_le.mpr hple)]
        exact hrec.1
      · intro j hj
        obtain ⟨k, rfl⟩ : ∃ k, j = k + 2 := by
          refine ⟨j - 2, ?_⟩
          omega
        simp only [processFrames, if_neg (not_le.mpr hple)]
        show (processFrames data false vol (p + 2) m).2.2.getD k 0 = 0
        exact hrec.2 k (by omega)

/-- C9: `SamplePlayer::process(out, N)` fills the whole output block
with zeros (and leaves the state untouched) whenever the player is not
playing or nothing is loaded; and when the playhead reaches the end of
the sample within the block with looping disabled, the player stops
(playing becomes false) and the output samples from the end-of-sample
frame onward are zero. -/
theorem samplePlayer_silence_and_stop (st : SamplePlayer) (N : ℕ) :
    (st.playing = false ∨ st.sampleData.isEmpty = true →
      st.process N = (st, List.replicate (2 * N) 0)) ∧
    (st.playing = true → st.sampleData.isEmpty = false → st.loop = false →
      2 ∣ st.sampleData.length → 2 ∣ st.playbackPosition → 1 ≤ N →
      st.sampleData.length + 2 ≤ st.playbackPosition + 2 * N →
      ((st.process N).1.playing = false ∧
       ∀ j, 2 * ((st.sampleData.length - st.playbackPosition + 1) / 2) ≤ j →
         (st.process N).2.getD j 0 = 0)) := by
  constructor
  · intro h
    rcases h with h | h <;> simp [SamplePlayer.process, h]
  · intro hp hl hlp hd hpos hn hend
    have haux := processFrames_end_stop st.sampleData st.volume N
      st.playbackPosition hd hpos hn hend
    have hcond : ¬ (st.playing = false ∨ st.sampleData.isEmpty = true) := by
      simp [hp, hl]
    constructor
    · simp only [SamplePlayer.process, if_neg hcond, hlp]
      exact haux.1
    · intro j hj
      simp only [SamplePlayer.process, if_neg hcond, hlp]
      exact haux.2 j hj

/-- One-frame sample player state, stopped (witness input). -/
def spIdleOne : SamplePlayer :=
  { sampleRate := 48000, sampleData := [1/2, 1/2], playing := false,
    loop := false, playbackPosition := 0, volume := 1 }

/-- One-frame sample player state, playing (witness input). -/
def spPlayingOne : SamplePlayer :=
  { sampleRate := 48000, sampleData := [1/2, 1/2], playing := true,
    loop := false, playbackPosition := 0, volume := 1 }

/-- C9 witness: with one loaded stereo frame, a 2-frame block starting
at position 0 runs off the end: the player stops and the second output
frame is zero; a non-playing player produces a fully zero block with
unchanged state. -/
theorem samplePlayer_silence_and_stop_witness :
    (SamplePlayer.process spIdleOne 3 = (spIdleOne, List.replicate 6 0)) ∧
    ((SamplePlayer.process spPlayingOne 2).1.playing = false) ∧
    ((SamplePlayer.process spPlayingOne 2).2.getD 2 0 = 0) := by
  refine ⟨(samplePlayer_silence_and_stop spIdleOne 3).1 (Or.inl rfl), ?_, ?_⟩
  · exact ((samplePlayer_silence_and_stop spPlayingOne 2).2 rfl rfl rfl
      (by decide) (by decide) (by decide) (by decide)).1
  · exact ((samplePlayer_silence_and_stop spPlayingOne 2).2 rfl rfl rfl
      (by decide) (by decide) (by decide) (by decide)).2 2 (by decide)

/-- C10: the claim that every read of the input vector in
`SamplePlayer::resample` stays in bounds is false — at a 1-frame
stereo input resampled 44100 → 48000, the end-clamp branch sets
srcFrame = inputFrames − 1 but `sample2` still reads
(srcFrame + 1)·channels + ch, i.e. indices 2 and 3 of a 2-element
vector. -/
theorem resample_reads_past_end :
    (2 ∈ resampleReadIndices 2 2 44100 48000 ∧ ¬ 2 < 2) ∧
    (3 ∈ resampleReadIndices 2 2 44100 48000 ∧ ¬ 3 < 2) := by
  decide

end DubSiren
